import Mathlib

/-!
Verification of the instrument-driver logic in
`instrumental/drivers/scopes/tektronix.py` and
`instrumental/drivers/powermeters/newport.py`.

The drivers are shallowly embedded: a device is modelled as a pure
response function from query strings to response strings (plus, for the
scope, the raw byte block returned by the curve fetch).  Driver methods
become pure Lean functions returning an `Except` result together with
the list of set-commands written to the device, in the order the Python
code sends them.  Machine text is modelled with `String`/`List Char`,
bytes with `Nat` (0..255), and Python floats with `ℚ` (all arithmetic in
the claims is exact).  The byte strings of `tektronix.py` are modelled
with Python-2 `str` semantics (indexing a byte string yields a one-byte
character), which is the semantics the 2013-era driver was written for.
-/

/-- Decidable equality of `Except` results, so that concrete runs of
the embedded drivers can be checked by `decide`. -/
instance {ε α : Type} [DecidableEq ε] [DecidableEq α] : DecidableEq (Except ε α) := fun x y =>
  match x, y with
  | Except.ok a, Except.ok b =>
      if h : a = b then isTrue (by rw [h]) else isFalse (by simp [h])
  | Except.error a, Except.error b =>
      if h : a = b then isTrue (by rw [h]) else isFalse (by simp [h])
  | Except.ok _, Except.error _ => isFalse (by simp)
  | Except.error _, Except.ok _ => isFalse (by simp)

/-! ### Python string primitives -/

/-- Whether a character is an ASCII decimal digit. -/
def isDigitChar (c : Char) : Bool := 48 ≤ c.toNat && c.toNat ≤ 57

/-- Value of a list of ASCII digits, most significant first. -/
def digitsToNat (cs : List Char) : Nat :=
  cs.foldl (fun a c => a * 10 + (c.toNat - 48)) 0

/-- Parse a nonempty all-digit character list as a nonnegative integer. -/
def parseUInt (cs : List Char) : Option Int :=
  if cs.isEmpty || !cs.all isDigitChar then none
  else some (digitsToNat cs : Int)

/-- Python `int(s)` on the strings this code meets: an optional minus
sign followed by decimal digits; anything else raises `ValueError`
(modelled as `none`). -/
def pyInt (s : String) : Option Int :=
  match s.toList with
  | [] => none
  | c :: cs =>
      if c = '-' then (parseUInt cs).map (fun n => -n)
      else parseUInt (c :: cs)

/-- Unsigned decimal float body: digits, optionally a point and more
digits (`"1"`, `"1.0"`, `".5"`, `"1."`). -/
def parseUFloat (cs : List Char) : Option ℚ :=
  let ip := cs.takeWhile isDigitChar
  let rest := cs.dropWhile isDigitChar
  if rest.isEmpty then
    if ip.isEmpty then none else some (digitsToNat ip : ℚ)
  else
    if rest.headD ' ' = '.'
        && (rest.tail.all isDigitChar && !(ip.isEmpty && rest.tail.isEmpty)) then
      some ((digitsToNat ip : ℚ) + (digitsToNat rest.tail : ℚ) / (10 ^ rest.tail.length : ℚ))
    else none

/-- Python `float(s)` on plain decimal literals with optional sign. -/
def pyFloat (s : String) : Option ℚ :=
  match s.toList with
  | [] => none
  | c :: cs =>
      if c = '-' then (parseUFloat cs).map (fun q => -q)
      else parseUFloat (c :: cs)

/-- ASCII lower-casing of one character, as Python `str.lower` does. -/
def lowerChar (c : Char) : Char :=
  if 65 ≤ c.toNat ∧ c.toNat ≤ 90 then Char.ofNat (c.toNat + 32) else c

/-- Python `s.lower()` for ASCII strings. -/
def pyLower (s : String) : String := String.mk (s.toList.map lowerChar)

/-- Python `s[1:-1]`: drop the first and the last character. -/
def strip1 (s : String) : String := String.mk ((s.toList.drop 1).dropLast)

/-- Python `s.strip(qc)` for a single strip character: remove every
leading and trailing occurrence of `qc`. -/
def pyStripChar (qc : Char) (s : String) : String :=
  String.mk ((((s.toList.dropWhile (fun c => c = qc)).reverse.dropWhile
      (fun c => c = qc)).reverse))

/-! ### Tektronix scope model (`tektronix.py`)

A `ScopeDevice` is the instrument as seen by `TekScope`: `ask` is the
response to a query and `readRaw` is the raw byte block returned after
the `curve?` command (`inst.read_raw()`).  The `data:...` set-up writes
of `get_data` configure the mock device and carry no information in the
pure model, so they are not recorded. -/

structure ScopeDevice where
  ask : String → String
  readRaw : List Nat

/-- One big-endian signed 16-bit sample from two bytes (numpy dtype `>i2`). -/
def int16BE (b0 b1 : Nat) : Int :=
  let v := (b0 % 256) * 256 + b1 % 256
  if v < 32768 then (v : Int) else (v : Int) - 65536

/-- Decode `n` consecutive big-endian 16-bit samples from the front of a
byte list; `none` when fewer than `2 * n` bytes remain (numpy raises
`ValueError` in that case). -/
def takeSamples : List Nat → Nat → Option (List Int)
  | _, 0 => some []
  | b0 :: b1 :: rest, n + 1 => (takeSamples rest n).map (fun ys => int16BE b0 b1 :: ys)
  | _, _ + 1 => none

/-- `np.frombuffer(buf, dtype=def_i2be, offset, count)` for `count ≥ 0`. -/
def fromBufferI16BE (buf : List Nat) (offset count : Nat) : Option (List Int) :=
  if offset ≤ buf.length then takeSamples (buf.drop offset) count else none

/-- Lines 90-93: `num_bytes = int(raw_bin[2:header_width])` and
`np.frombuffer(raw_bin, dtype_i2be, offset=header_width, count=num_bytes//2)`.
A negative declared count is outside the modelled range and is rejected. -/
def decodeCount (raw_bin : List Nat) (header_width : Nat) : Except String (List Int) :=
  match pyInt (String.mk (((raw_bin.drop 2).take (header_width - 2)).map Char.ofNat)) with
  | none => Except.error "ValueError"
  | some num_bytes =>
      if num_bytes < 0 then Except.error "ValueError"
      else
        match fromBufferI16BE raw_bin header_width (num_bytes.toNat / 2) with
        | none => Except.error "ValueError"
        | some ys => Except.ok ys

/-- Lines 89: `header_width = int(raw_bin[1]) + 2`; a missing or
non-digit second byte raises. -/
def decodeHeaderDigit (raw_bin rest : List Nat) : Except String (List Int) :=
  match rest with
  | [] => Except.error "IndexError"
  | b1 :: _ =>
      match pyInt (String.mk [Char.ofNat b1]) with
      | none => Except.error "ValueError"
      | some d => decodeCount raw_bin (d.toNat + 2)

/-- The binary block header check of `get_data` (line 87): first byte
must be the `#` marker (byte 35). -/
def decodeBlockE (raw_bin : List Nat) : Except String (List Int) :=
  match raw_bin with
  | [] => Except.error "IndexError"
  | b0 :: rest =>
      if b0 = 35 then decodeHeaderDigit raw_bin rest
      else Except.error "Binary reponse missing header"

/-- `int(inst.ask(q))`. -/
def askIntE (dev : ScopeDevice) (q : String) : Except String Int :=
  match pyInt (dev.ask q) with
  | some v => Except.ok v
  | none => Except.error "ValueError"

/-- `float(inst.ask(q))`. -/
def askFloatE (dev : ScopeDevice) (q : String) : Except String ℚ :=
  match pyFloat (dev.ask q) with
  | some v => Except.ok v
  | none => Except.error "ValueError"

/-- Result of `TekScope.get_data`: the two unit-tagged sequences. -/
structure WaveResult where
  dataX : List ℚ
  xUnit : String
  dataY : List ℚ
  yUnit : String
deriving DecidableEq

/-- `TekScope.get_data` (lines 56-98).  The `channel` argument only
selects the data source on the device; the fixed `stop = 10000`
override of line 65 and the scale/offset/unit queries are as in the
source.  `raw_data_x = np.arange(1, stop+1)`. -/
def get_data (dev : ScopeDevice) (channel : Nat) : Except String WaveResult := do
  let _ := channel
  let _nr_pt ← askIntE dev "wfmpre:nr_pt?"
  let stop := 10000
  let raw_bin := dev.readRaw
  let x_scale ← askFloatE dev "wfmpre:xincr?"
  let y_scale ← askFloatE dev "wfmpre:ymult?"
  let x_zero ← askFloatE dev "wfmpre:xzero?"
  let y_zero ← askFloatE dev "wfmpre:yzero?"
  let x_offset ← askFloatE dev "wfmpre:pt_off?"
  let y_offset ← askFloatE dev "wfmpre:yoff?"
  let x_unit := strip1 (dev.ask "wfmpre:xunit?")
  let y_unit := strip1 (dev.ask "wfmpre:yunit?")
  let raw_data_x := (List.range stop).map (fun (i : Nat) => ((i : ℚ) + 1))
  let raw_data_y ← decodeBlockE raw_bin
  let data_x := raw_data_x.map (fun xv => (xv - x_offset) * x_scale + x_zero)
  let data_y := raw_data_y.map (fun (yv : Int) => ((yv : ℚ) - y_offset) * y_scale + y_zero)
  return { dataX := data_x, xUnit := x_unit, dataY := data_y, yUnit := y_unit }

/-- `TekScope.are_measurement_stats_on` (lines 161-163):
`res not in [OFF, 0]`. -/
def are_measurement_stats_on (dev : ScopeDevice) : Bool :=
  let res := dev.ask "measu:statistics:mode?"
  !(res == "OFF" || res == "0")

/-- `TekScope.enable_measurement_stats` (lines 165-167): the commands it
writes.  The DPO 4034 needs `ALL` instead of `ON`. -/
def enable_measurement_stats (enable : Bool) : List String :=
  ["measu:statistics:mode " ++ (if enable then "ALL" else "OFF")]

/-- `TekScope.disable_measurement_stats` (lines 169-170). -/
def disable_measurement_stats : List String := enable_measurement_stats false

/-- Result of `TekScope.read_measurement_stats`: the five raw statistic
fields paired with their keys, the shared unit string, and the sample
weighting count. -/
structure MeasStats where
  fields : List (String × String)
  units : String
  nsamps : Int
deriving DecidableEq

/-- `TekScope.read_measurement_stats` (lines 117-143), returning the
result and the queries sent, in order.  When statistics are off the
method raises before the combined value query is ever sent. -/
def read_measurement_stats (dev : ScopeDevice) (num : Nat) :
    Except String MeasStats × List String :=
  let pfx := "measurement:meas" ++ toString num ++ ":"
  let modeQ := "measu:statistics:mode?"
  if are_measurement_stats_on dev then
    let q := pfx ++ "value?;mean?;stddev?;minimum?;maximum?;units?"
    let res := (dev.ask q).splitOn ";"
    let units := pyStripChar (Char.ofNat 34) (res.getLastD "")
    let vals := res.dropLast
    let keys := ["value", "mean", "stddev", "minimum", "maximum"]
    let stats := keys.zip vals
    let wq := "measurement:statistics:weighting?"
    match pyInt (dev.ask wq) with
    | none => (Except.error "ValueError", [modeQ, q, wq])
    | some n => (Except.ok ⟨stats, units, n⟩, [modeQ, q, wq])
  else
    (Except.error "Measurement statistics are turned off, please turn them on.",
     [modeQ])

/-- A scope whose statistics-mode query is answered with a stored
token, as a device echoing the last-set mode does. -/
def echoScope (tok : String) : ScopeDevice :=
  ⟨fun q => if q = "measu:statistics:mode?" then tok else "", []⟩

/-- The mode token of a `measu:statistics:mode <tok>` command (the part
after the 22-character fixed head). -/
def mode_cmd_token (cmd : String) : String := String.mk (cmd.toList.drop 22)

/-! ### Newport 1830-C model (`newport.py`, `Newport_1830_C`) -/

/-- The instrument as seen by the 1830-C driver: response to a query. -/
structure MeterDevice where
  ask : String → String

/-- Status byte masks (lines 49-56). -/
def N1830_SATURATED : Nat := 4

def N1830_OUT_OF_RANGE : Nat := 8

def N1830_BUSY : Nat := 32

/-- `Newport_1830_C.is_measurement_valid` (lines 236-247) on the parsed
status byte. -/
def is_measurement_valid (reg : Nat) : Bool :=
  let is_saturated : Bool := reg &&& N1830_SATURATED != 0
  let is_over_range : Bool := reg &&& N1830_OUT_OF_RANGE != 0
  let is_busy : Bool := reg &&& N1830_BUSY != 0
  !(is_saturated || is_over_range || is_busy)

/-- `Newport_1830_C.power` (lines 77-95): queries the units mode, makes
sure the device measures in watts around the display read, and restores
the original mode.  Returns the watts-tagged value and the list of set
commands written (queries are not set commands). -/
def N1830_power (dev : MeterDevice) : Except String (ℚ × String) × List String :=
  let original_units := dev.ask "U?"
  if original_units ≠ "1" then
    match pyFloat (dev.ask "D?") with
    | none => (Except.error "ValueError", ["U1"])
    | some p => (Except.ok (p, "watts"), ["U1", "U" ++ original_units])
  else
    match pyFloat (dev.ask "D?") with
    | none => (Except.error "ValueError", [])
    | some p => (Except.ok (p, "watts"), [])

/-- The units table of `Newport_1830_C.set_units` (line 299). -/
def N1830_valid_units : List (String × Nat) :=
  [("watts", 1), ("dbm", 2), ("db", 3), ("rel", 4)]

/-- The code-to-name table of `Newport_1830_C.get_units` (line 315). -/
def N1830_unit_names : List (Int × String) :=
  [(1, "watts"), (2, "db"), (3, "dbm"), (4, "rel")]

/-- `Newport_1830_C.set_units` (lines 274-304): lower-case the
argument, reject anything outside the units table before any write, and
otherwise write the single command `U<code>`. -/
def N1830_set_units (units : String) : Except String (List String) :=
  let u := pyLower units
  match N1830_valid_units.lookup u with
  | none => Except.error "units must be one of watts, dbm, db, or rel"
  | some c => Except.ok ["U" ++ toString c]

/-- `Newport_1830_C.get_units` (lines 306-316) applied to the response
of the `U?` query. -/
def N1830_get_units (resp : String) : Except String String :=
  match pyInt resp with
  | none => Except.error "ValueError"
  | some v =>
      match N1830_unit_names.lookup v with
      | none => Except.error "KeyError"
      | some u => Except.ok u

/-- `set_units tok` followed by `get_units` against a device that
echoes the last-set units code: the digit of the written `U<code>`
command is fed back as the `U?` response. -/
def set_get_roundtrip (tok : String) : Except String String :=
  match N1830_set_units tok with
  | Except.error e => Except.error e
  | Except.ok cmds => N1830_get_units (String.mk ((cmds.headD "").toList.drop 1))

/-! ### Newport 2936-R model (`newport.py`, `Newport_2936_R`)

Each setter returns its result and the full list of commands written,
in the order Python executes them: `self.set_channel(channel)` runs
first, and only then is the argument of the final `self.write(...)`
evaluated, so a failing table lookup happens after the channel-select
command is already out. -/

/-- `Newport_2936_R.set_channel` (lines 363-364). -/
def N2936_chanCmd (channel : Int) : String := "pm:channel " ++ toString channel

/-- Units table of `Newport_2936_R.set_units` (lines 375-383). -/
def N2936_unitCodes : List (String × Nat) :=
  [("amps", 0), ("volts", 1), ("watts", 2), ("watts_cm2", 3),
   ("joules", 4), ("joules_cm2", 5), ("dbm", 6)]

/-- Mode table of `Newport_2936_R.set_analogfilter` (lines 396-402);
note the capitalised key `"None"`. -/
def N2936_analogModes : List (String × Nat) :=
  [("None", 0), ("250khz", 1), ("12.5khz", 2), ("1khz", 3), ("5hz", 4)]

/-- `Newport_2936_R.set_units` (lines 366-386). -/
def N2936_set_units (units : String) (channel : Int) :
    Except String Unit × List String :=
  let sent := [N2936_chanCmd channel]
  match N2936_unitCodes.lookup (pyLower units) with
  | none => (Except.error ("KeyError: " ++ pyLower units), sent)
  | some c => (Except.ok (), sent ++ ["pm:units " ++ toString c])

/-- `Newport_2936_R.set_analogfilter` (lines 388-405). -/
def N2936_set_analogfilter (mode : String) (channel : Int) :
    Except String Unit × List String :=
  let sent := [N2936_chanCmd channel]
  match N2936_analogModes.lookup (pyLower mode) with
  | none => (Except.error ("KeyError: " ++ pyLower mode), sent)
  | some c => (Except.ok (), sent ++ ["pm:analogfilter " ++ toString c])

/-- `Newport_2936_R.set_digitalfilter` (lines 407-417): the assert runs
before the channel select. -/
def N2936_set_digitalfilter (num : Int) (channel : Int) :
    Except String Unit × List String :=
  if num < 0 ∨ 10000 < num then (Except.error "AssertionError", [])
  else (Except.ok (), [N2936_chanCmd channel, "pm:digitalfilter " ++ toString num])

/-- `Newport_2936_R.set_autoranging` (lines 419-431): with a boolean
argument the table lookup is total. -/
def N2936_set_autoranging (auto : Bool) (channel : Int) :
    Except String Unit × List String :=
  (Except.ok (),
   [N2936_chanCmd channel, "pm:auto " ++ (if auto then "1" else "0")])

/-- `Newport_2936_R.set_range` (lines 433-443): the assert runs before
the channel select. -/
def N2936_set_range (value : Int) (channel : Int) :
    Except String Unit × List String :=
  if value < 0 ∨ 7 < value then (Except.error "AssertionError", [])
  else (Except.ok (), [N2936_chanCmd channel, "pm:range " ++ toString value])

/-! ### Helper lemmas for the scope engine -/

theorem takeSamples_some : ∀ (n : Nat) (l : List Nat), 2 * n ≤ l.length →
    ∃ ys, takeSamples l n = some ys ∧ ys.length = n := by
  intro n
  induction n with
  | zero =>
      intro l _
      exact ⟨[], by cases l with | nil => rfl | cons a t => cases t <;> rfl, rfl⟩
  | succ m ih =>
      intro l hl
      cases l with
      | nil => simp at hl
      | cons a t =>
          cases t with
          | nil => simp at hl; omega
          | cons b rest =>
              have h2 : 2 * m ≤ rest.length := by
                simp [List.length_cons] at hl; omega
              obtain ⟨ys, hys, hlenys⟩ := ih rest h2
              exact ⟨int16BE a b :: ys, by simp [takeSamples, hys], by simp [hlenys]⟩

theorem takeSamples_replicate (n : Nat) :
    takeSamples (List.replicate (2 * n) 0) n = some (List.replicate n 0) := by
  induction n with
  | zero => rfl
  | succ m ih =>
      have h : 2 * (m + 1) = (2 * m) + 1 + 1 := by ring
      rw [h, List.replicate_succ, List.replicate_succ]
      simp [takeSamples, ih, int16BE, List.replicate_succ]

/-- Decoding a syntactically well-formed block: marker byte, one header
digit whose value `k` is the width of the byte-count field, `k` count
digits declaring `L` payload bytes, and a payload from which
`L / 2` samples can be taken. -/
theorem decodeBlockE_structured (d : Nat) (k L : Int) (lenDs payload : List Nat) (ys : List Int)
    (hk : pyInt (String.mk [Char.ofNat d]) = some k)
    (hlen : lenDs.length = k.toNat)
    (hL : pyInt (String.mk (lenDs.map Char.ofNat)) = some L)
    (hL0 : 0 ≤ L)
    (hts : takeSamples payload (L.toNat / 2) = some ys) :
    decodeBlockE (35 :: d :: (lenDs ++ payload)) = Except.ok ys := by
  show decodeHeaderDigit (35 :: d :: (lenDs ++ payload)) (d :: (lenDs ++ payload)) =
    Except.ok ys
  simp only [decodeHeaderDigit, hk]
  have hdrop2 : (35 :: d :: (lenDs ++ payload)).drop 2 = lenDs ++ payload := rfl
  have harith : k.toNat + 2 - 2 = lenDs.length := by omega
  simp only [decodeCount, hdrop2, harith, List.take_left, hL]
  rw [if_neg (by omega)]
  have hoff : k.toNat + 2 ≤ (35 :: d :: (lenDs ++ payload)).length := by
    simp [List.length_cons, List.length_append]
    omega
  have hdropHW : (35 :: d :: (lenDs ++ payload)).drop (k.toNat + 2) =
      (lenDs ++ payload).drop k.toNat := rfl
  have hfb : fromBufferI16BE (35 :: d :: (lenDs ++ payload)) (k.toNat + 2) (L.toNat / 2) =
      some ys := by
    simp only [fromBufferI16BE, if_pos hoff, hdropHW]
    rw [← hlen, List.drop_left]
    exact hts
  simp only [hfb]

/-- Full characterization of a successful `get_data` run, in the exact
arithmetic shape of lines 95-96 of the source. -/
theorem get_data_eq (dev : ScopeDevice) (channel : Nat) (n0 : Int)
    (xs ysc xz yz xo yo : ℚ) (raw_y : List Int)
    (hn : pyInt (dev.ask "wfmpre:nr_pt?") = some n0)
    (hxs : pyFloat (dev.ask "wfmpre:xincr?") = some xs)
    (hys : pyFloat (dev.ask "wfmpre:ymult?") = some ysc)
    (hxz : pyFloat (dev.ask "wfmpre:xzero?") = some xz)
    (hyz : pyFloat (dev.ask "wfmpre:yzero?") = some yz)
    (hxo : pyFloat (dev.ask "wfmpre:pt_off?") = some xo)
    (hyo : pyFloat (dev.ask "wfmpre:yoff?") = some yo)
    (hdec : decodeBlockE dev.readRaw = Except.ok raw_y) :
    get_data dev channel = Except.ok
      { dataX := (List.range 10000).map (fun (i : Nat) => (((i : ℚ) + 1) - xo) * xs + xz)
        xUnit := strip1 (dev.ask "wfmpre:xunit?")
        dataY := raw_y.map (fun (yv : Int) => ((yv : ℚ) - yo) * ysc + yz)
        yUnit := strip1 (dev.ask "wfmpre:yunit?") } := by
  simp only [get_data, askIntE, askFloatE, hn, hxs, hys, hxz, hyz, hxo, hyo, hdec,
    bind, Except.bind, pure, Except.pure, List.map_map]
  rfl

/-- A decode failure propagates: when the scale queries parse,
`get_data` fails with exactly the block-decode error. -/
theorem get_data_error (dev : ScopeDevice) (channel : Nat) (n0 : Int)
    (xs ysc xz yz xo yo : ℚ) (e : String)
    (hn : pyInt (dev.ask "wfmpre:nr_pt?") = some n0)
    (hxs : pyFloat (dev.ask "wfmpre:xincr?") = some xs)
    (hys : pyFloat (dev.ask "wfmpre:ymult?") = some ysc)
    (hxz : pyFloat (dev.ask "wfmpre:xzero?") = some xz)
    (hyz : pyFloat (dev.ask "wfmpre:yzero?") = some yz)
    (hxo : pyFloat (dev.ask "wfmpre:pt_off?") = some xo)
    (hyo : pyFloat (dev.ask "wfmpre:yoff?") = some yo)
    (hdec : decodeBlockE dev.readRaw = Except.error e) :
    get_data dev channel = Except.error e := by
  simp only [get_data, askIntE, askFloatE, hn, hxs, hys, hxz, hyz, hxo, hyo, hdec,
    bind, Except.bind, pure, Except.pure]

/-- The block of the end-to-end example: `#18` then four big-endian
16-bit samples 10, 20, 30, 40. -/
def tekBlock4 : List Nat := [35, 49, 56, 0, 10, 0, 20, 0, 30, 0, 40]

/-- The mock scope of the end-to-end spec example: 4-sample block,
units `"S"`/`"V"` (quoted, as the instrument sends them), x-increment
and y-multiplier 1, zeros and offsets 0. -/
def exampleScope : ScopeDevice :=
  ⟨fun q =>
      if q = "wfmpre:nr_pt?" then "4"
      else if q = "wfmpre:xunit?" then "\"S\""
      else if q = "wfmpre:yunit?" then "\"V\""
      else if q = "wfmpre:xincr?" then "1"
      else if q = "wfmpre:ymult?" then "1"
      else "0",
   tekBlock4⟩

/-! ### Claims C1 - C3: waveform engine -/

/-- Claim C1: for every channel and every waveform block whose payload
decodes to big-endian signed 16-bit samples `raw_y`, `get_data` returns
`x[i] = x_zero + (i+1 - x_point_offset) * x_increment` tagged with the
parsed x-unit string, and
`y[i] = y_zero + (raw_y[i] - y_point_offset) * y_multiplier` tagged with
the parsed y-unit string, the unit strings being the query responses
with their surrounding quote characters stripped. -/
theorem C1_get_data_scaling (dev : ScopeDevice) (channel : Nat) (n0 : Int)
    (xs ysc xz yz xo yo : ℚ) (raw_y : List Int)
    (hn : pyInt (dev.ask "wfmpre:nr_pt?") = some n0)
    (hxs : pyFloat (dev.ask "wfmpre:xincr?") = some xs)
    (hys : pyFloat (dev.ask "wfmpre:ymult?") = some ysc)
    (hxz : pyFloat (dev.ask "wfmpre:xzero?") = some xz)
    (hyz : pyFloat (dev.ask "wfmpre:yzero?") = some yz)
    (hxo : pyFloat (dev.ask "wfmpre:pt_off?") = some xo)
    (hyo : pyFloat (dev.ask "wfmpre:yoff?") = some yo)
    (hdec : decodeBlockE dev.readRaw = Except.ok raw_y) :
    get_data dev channel = Except.ok
      { dataX := (List.range 10000).map (fun (i : Nat) => xz + (((i : ℚ) + 1) - xo) * xs)
        xUnit := strip1 (dev.ask "wfmpre:xunit?")
        dataY := raw_y.map (fun (yv : Int) => yz + (((yv : ℚ)) - yo) * ysc)
        yUnit := strip1 (dev.ask "wfmpre:yunit?") } := by
  have h1 : (List.range 10000).map (fun (i : Nat) => (((i : ℚ) + 1) - xo) * xs + xz) =
      (List.range 10000).map (fun (i : Nat) => xz + (((i : ℚ) + 1) - xo) * xs) :=
    List.map_congr_left (fun a _ => by ring)
  have h2 : raw_y.map (fun (yv : Int) => ((yv : ℚ) - yo) * ysc + yz) =
      raw_y.map (fun (yv : Int) => yz + (((yv : ℚ)) - yo) * ysc) :=
    List.map_congr_left (fun a _ => by ring)
  rw [get_data_eq dev channel n0 xs ysc xz yz xo yo raw_y hn hxs hys hxz hyz hxo hyo hdec,
    h1, h2]

/-- Witness for C1 at the end-to-end example of the spec: scale parameters
1, offsets 0, samples 10, 20, 30, 40, units volts and seconds. -/
theorem C1_get_data_scaling_witness :
    get_data exampleScope 1 = Except.ok
      { dataX := (List.range 10000).map (fun (i : Nat) => 0 + (((i : ℚ) + 1) - 0) * 1)
        xUnit := "S"
        dataY := ([10, 20, 30, 40] : List Int).map (fun (yv : Int) => 0 + (((yv : ℚ)) - 0) * 1)
        yUnit := "V" } :=
  C1_get_data_scaling exampleScope 1 4 1 1 0 0 0 0 [10, 20, 30, 40]
    (by decide) (by decide) (by decide) (by decide) (by decide) (by decide) (by decide)
    (by decide)

/-- A mock scope whose x-increment query answers -1; every other
scale query answers 0 and the block is the 4-sample example block. -/
def negScope : ScopeDevice :=
  ⟨fun q =>
      if q = "wfmpre:nr_pt?" then "4"
      else if q = "wfmpre:xincr?" then "-1"
      else "0",
   tekBlock4⟩

/-- Counterexample to claim C2 as stated: on the end-to-end example
device the call succeeds with 10000 x-values but only 4 y-values, so
`length(x) = length(y) = 10000` fails; and on a device whose
x-increment parses to -1 the call succeeds with x starting -1, -2,
so x is not monotonically increasing. -/
theorem C2_counterexample :
    ((get_data exampleScope 1).map (fun r => (r.dataX.length, r.dataY.length)) =
        Except.ok (10000, 4) ∧ (10000 : Nat) ≠ 4) ∧
    ((get_data negScope 1).map (fun r => r.dataX.take 2) = Except.ok [(-1 : ℚ), -2] ∧
      ¬((-1 : ℚ) ≤ -2)) := by
  refine ⟨⟨?_, by decide⟩, ⟨?_, by norm_num⟩⟩
  · rw [get_data_eq exampleScope 1 4 1 1 0 0 0 0 [10, 20, 30, 40]
      (by decide) (by decide) (by decide) (by decide) (by decide) (by decide) (by decide)
      (by decide)]
    simp only [Except.map, List.length_map, List.length_range, List.length_cons,
      List.length_nil]
  · rw [get_data_eq negScope 1 4 (-1) 0 0 0 0 0 [10, 20, 30, 40]
      (by decide) (by decide) (by decide) (by decide) (by decide) (by decide) (by decide)
      (by decide)]
    simp only [Except.map]
    rw [← List.map_take, List.take_range, show (2 ⊓ 10000 : Nat) = 2 from by norm_num,
      show List.range 2 = [0, 1] from by decide]
    simp only [List.map_cons, List.map_nil, List.cons.injEq, and_true]
    norm_num

/-- Inversion of a successful `get_data` run: success forces the point
count and the six scale queries to parse and the block to decode, and
these determine the returned record. -/
theorem get_data_ok_inv (dev : ScopeDevice) (channel : Nat) (r : WaveResult)
    (h : get_data dev channel = Except.ok r) :
    ∃ (n0 : Int) (xs ysc xz yz xo yo : ℚ) (raw_y : List Int),
      pyInt (dev.ask "wfmpre:nr_pt?") = some n0 ∧
      pyFloat (dev.ask "wfmpre:xincr?") = some xs ∧
      pyFloat (dev.ask "wfmpre:ymult?") = some ysc ∧
      pyFloat (dev.ask "wfmpre:xzero?") = some xz ∧
      pyFloat (dev.ask "wfmpre:yzero?") = some yz ∧
      pyFloat (dev.ask "wfmpre:pt_off?") = some xo ∧
      pyFloat (dev.ask "wfmpre:yoff?") = some yo ∧
      decodeBlockE dev.readRaw = Except.ok raw_y ∧
      r = { dataX := (List.range 10000).map (fun (i : Nat) => (((i : ℚ) + 1) - xo) * xs + xz)
            xUnit := strip1 (dev.ask "wfmpre:xunit?")
            dataY := raw_y.map (fun (yv : Int) => ((yv : ℚ) - yo) * ysc + yz)
            yUnit := strip1 (dev.ask "wfmpre:yunit?") } := by
  cases hn : pyInt (dev.ask "wfmpre:nr_pt?") with
  | none =>
      simp only [get_data, askIntE, hn, bind, Except.bind] at h
      exact Except.noConfusion h
  | some n0 =>
  cases hxs : pyFloat (dev.ask "wfmpre:xincr?") with
  | none =>
      simp only [get_data, askIntE, askFloatE, hn, hxs, bind, Except.bind] at h
      exact Except.noConfusion h
  | some xs =>
  cases hys : pyFloat (dev.ask "wfmpre:ymult?") with
  | none =>
      simp only [get_data, askIntE, askFloatE, hn, hxs, hys, bind, Except.bind] at h
      exact Except.noConfusion h
  | some ysc =>
  cases hxz : pyFloat (dev.ask "wfmpre:xzero?") with
  | none =>
      simp only [get_data, askIntE, askFloatE, hn, hxs, hys, hxz, bind, Except.bind] at h
      exact Except.noConfusion h
  | some xz =>
  cases hyz : pyFloat (dev.ask "wfmpre:yzero?") with
  | none =>
      simp only [get_data, askIntE, askFloatE, hn, hxs, hys, hxz, hyz, bind,
        Except.bind] at h
      exact Except.noConfusion h
  | some yz =>
  cases hxo : pyFloat (dev.ask "wfmpre:pt_off?") with
  | none =>
      simp only [get_data, askIntE, askFloatE, hn, hxs, hys, hxz, hyz, hxo, bind,
        Except.bind] at h
      exact Except.noConfusion h
  | some xo =>
  cases hyo : pyFloat (dev.ask "wfmpre:yoff?") with
  | none =>
      simp only [get_data, askIntE, askFloatE, hn, hxs, hys, hxz, hyz, hxo, hyo, bind,
        Except.bind] at h
      exact Except.noConfusion h
  | some yo =>
  cases hdec : decodeBlockE dev.readRaw with
  | error e =>
      rw [get_data_error dev channel n0 xs ysc xz yz xo yo e
        hn hxs hys hxz hyz hxo hyo hdec] at h
      exact Except.noConfusion h
  | ok raw_y =>
      rw [get_data_eq dev channel n0 xs ysc xz yz xo yo raw_y
        hn hxs hys hxz hyz hxo hyo hdec] at h
      injection h with h
      exact ⟨n0, xs, ysc, xz, yz, xo, yo, raw_y,
        rfl, rfl, rfl, rfl, rfl, rfl, rfl, rfl, h.symm⟩

/-- Claim C2, amended: on every successful call `length(x)` is 10000;
`length(y)` is the number of samples decoded from the block, so the two
lengths agree exactly when the block carries 10000 samples (the stop
command requests 10000 points, but the code does not check the reply
against it); and x is monotonically increasing whenever the parsed
x-increment is positive (with a non-positive increment x is not
increasing, as the counterexample shows). -/
theorem C2_lengths_amended (dev : ScopeDevice) (channel : Nat) (r : WaveResult)
    (h : get_data dev channel = Except.ok r) :
    r.dataX.length = 10000 ∧
    (∃ raw_y, decodeBlockE dev.readRaw = Except.ok raw_y ∧
      r.dataY.length = raw_y.length ∧
      (r.dataX.length = r.dataY.length ↔ raw_y.length = 10000)) ∧
    (∀ xs : ℚ, pyFloat (dev.ask "wfmpre:xincr?") = some xs → 0 < xs →
      r.dataX.Pairwise (· < ·)) := by
  obtain ⟨n0, xs, ysc, xz, yz, xo, yo, raw_y, hn, hxs, hys, hxz, hyz, hxo, hyo, hdec, hr⟩ :=
    get_data_ok_inv dev channel r h
  subst hr
  refine ⟨by simp only [List.length_map, List.length_range],
    ⟨raw_y, hdec, by simp only [List.length_map],
      by simp only [List.length_map, List.length_range]; exact eq_comm⟩, ?_⟩
  intro xs2 hxs2 hpos
  have hxx : xs2 = xs := Option.some.inj (hxs2.symm.trans hxs)
  subst hxx
  simp only [List.pairwise_map]
  refine (List.pairwise_lt_range 10000).imp ?_
  intro a b hab
  have hc : (a : ℚ) < (b : ℚ) := by exact_mod_cast hab
  have := mul_lt_mul_of_pos_right (show ((a : ℚ) + 1) - xo < ((b : ℚ) + 1) - xo by
    linarith) hpos
  linarith

/-- A well-formed 10000-sample block: `#520000` then 20000 zero bytes. -/
def bigBlock : List Nat := [35, 53, 50, 48, 48, 48, 48] ++ List.replicate 20000 0

/-- A mock scope returning a full 10000-sample block, with every scale
parameter 1. -/
def bigScope : ScopeDevice :=
  ⟨fun q =>
      if q = "wfmpre:nr_pt?" then "10000"
      else if q = "wfmpre:xunit?" then "\"S\""
      else if q = "wfmpre:yunit?" then "\"V\""
      else "1",
   bigBlock⟩

theorem decodeBlockE_bigBlock :
    decodeBlockE bigBlock = Except.ok (List.replicate 10000 0) := by
  have h1 : bigBlock = 35 :: 53 :: ([50, 48, 48, 48, 48] ++ List.replicate 20000 0) := rfl
  rw [h1]
  refine decodeBlockE_structured 53 5 20000 [50, 48, 48, 48, 48]
    (List.replicate 20000 0) (List.replicate 10000 0)
    (by decide) (by decide) (by decide) (by decide) ?_
  have h2 : ((20000 : Int).toNat / 2) = 10000 := by decide
  rw [h2, show (20000 : Nat) = 2 * 10000 from rfl]
  exact takeSamples_replicate 10000

/-- The record `get_data` produces on `bigScope`. -/
def bigWave : WaveResult :=
  { dataX := (List.range 10000).map (fun (i : Nat) => (((i : ℚ) + 1) - 1) * 1 + 1)
    xUnit := "S"
    dataY := (List.replicate 10000 (0 : Int)).map (fun (yv : Int) => ((yv : ℚ) - 1) * 1 + 1)
    yUnit := "V" }

theorem get_data_bigScope : get_data bigScope 1 = Except.ok bigWave := by
  rw [get_data_eq bigScope 1 10000 1 1 1 1 1 1 (List.replicate 10000 0)
    (by decide) (by decide) (by decide) (by decide) (by decide) (by decide) (by decide)
    (by rw [show bigScope.readRaw = bigBlock from rfl]; exact decodeBlockE_bigBlock)]
  rfl

/-- Witness for the amended C2 at a successful call on a device
returning a full 10000-sample block. -/
theorem C2_lengths_amended_witness :
    bigWave.dataX.length = 10000 ∧
    (∃ raw_y, decodeBlockE bigScope.readRaw = Except.ok raw_y ∧
      bigWave.dataY.length = raw_y.length ∧
      (bigWave.dataX.length = bigWave.dataY.length ↔ raw_y.length = 10000)) ∧
    (∀ xs : ℚ, pyFloat (bigScope.ask "wfmpre:xincr?") = some xs → 0 < xs →
      bigWave.dataX.Pairwise (· < ·)) :=
  C2_lengths_amended bigScope 1 bigWave get_data_bigScope

/-- A mock scope whose raw block does not start with the `#` marker. -/
def badScope : ScopeDevice :=
  ⟨fun q => if q = "wfmpre:nr_pt?" then "4" else "1", [64, 49, 56, 0, 10]⟩

/-- Claim C3: with well-formed scale responses, (a) a raw block whose
first byte is the `#` marker (35), whose second byte is an ASCII digit
of value `k`, whose next `k` ASCII digits declare `L` payload bytes,
and whose payload holds at least `2 * (L / 2)` bytes decodes to exactly
`L / 2` big-endian signed 16-bit samples, and `get_data` returns that
many y-values; (b) a first byte other than the marker makes `get_data`
fail with the protocol error. -/
theorem C3_block_decode (dev : ScopeDevice) (channel : Nat) (n0 : Int)
    (xs ysc xz yz xo yo : ℚ)
    (hn : pyInt (dev.ask "wfmpre:nr_pt?") = some n0)
    (hxs : pyFloat (dev.ask "wfmpre:xincr?") = some xs)
    (hys : pyFloat (dev.ask "wfmpre:ymult?") = some ysc)
    (hxz : pyFloat (dev.ask "wfmpre:xzero?") = some xz)
    (hyz : pyFloat (dev.ask "wfmpre:yzero?") = some yz)
    (hxo : pyFloat (dev.ask "wfmpre:pt_off?") = some xo)
    (hyo : pyFloat (dev.ask "wfmpre:yoff?") = some yo) :
    (∀ (d : Nat) (k L : Int) (lenDs payload : List Nat),
        dev.readRaw = 35 :: d :: (lenDs ++ payload) →
        pyInt (String.mk [Char.ofNat d]) = some k →
        lenDs.length = k.toNat →
        pyInt (String.mk (lenDs.map Char.ofNat)) = some L →
        0 ≤ L →
        2 * (L.toNat / 2) ≤ payload.length →
        (decodeBlockE dev.readRaw).map List.length = Except.ok (L.toNat / 2) ∧
        (get_data dev channel).map (fun r => r.dataY.length) = Except.ok (L.toNat / 2)) ∧
    (∀ (b : Nat) (rest : List Nat),
        dev.readRaw = b :: rest → b ≠ 35 →
        get_data dev channel = Except.error "Binary reponse missing header") := by
  constructor
  · intro d k L lenDs payload hraw hk hlenk hL hL0 hpay
    obtain ⟨ys, hts, hlys⟩ := takeSamples_some (L.toNat / 2) payload hpay
    have hdec : decodeBlockE dev.readRaw = Except.ok ys := by
      rw [hraw]
      exact decodeBlockE_structured d k L lenDs payload ys hk hlenk hL hL0 hts
    constructor
    · rw [hdec]
      simp only [Except.map, hlys]
    · rw [get_data_eq dev channel n0 xs ysc xz yz xo yo ys hn hxs hys hxz hyz hxo hyo hdec]
      simp only [Except.map, List.length_map, hlys]
  · intro b rest hraw hb
    have hdec : decodeBlockE dev.readRaw = Except.error "Binary reponse missing header" := by
      rw [hraw]
      simp [decodeBlockE, hb]
    exact get_data_error dev channel n0 xs ysc xz yz xo yo _ hn hxs hys hxz hyz hxo hyo hdec

/-- Witness for C3: part (a) at the 4-sample example block (header
digit 1, declared length 8, so 4 samples), part (b) at a block whose
first byte is 64. -/
theorem C3_block_decode_witness :
    ((decodeBlockE exampleScope.readRaw).map List.length = Except.ok 4 ∧
      (get_data exampleScope 1).map (fun r => r.dataY.length) = Except.ok 4) ∧
    get_data badScope 1 = Except.error "Binary reponse missing header" :=
  ⟨(C3_block_decode exampleScope 1 4 1 1 0 0 0 0
      (by decide) (by decide) (by decide) (by decide) (by decide) (by decide) (by decide)).1
      49 1 8 [56] [0, 10, 0, 20, 0, 30, 0, 40]
      (by decide) (by decide) (by decide) (by decide) (by decide) (by decide),
   (C3_block_decode badScope 1 4 1 1 1 1 1 1
      (by decide) (by decide) (by decide) (by decide) (by decide) (by decide) (by decide)).2
      64 [49, 56, 0, 10] (by decide) (by decide)⟩

/-! ### Claims C4, C7, C8: Newport 1830-C -/

/-- Claim C4 evidence: the set-units and get-units tables of the
1830-C driver are not inverse to each other.  Against a device echoing
the last-set units code, `set_units` of `dBm` writes code 2 but
`get_units` maps code 2 back to `db`, and symmetrically for `dB`, so
the claimed case-insensitive round trip fails for those two tokens; it
holds for `watts` and `REL`, and an unknown token is rejected before
any write. -/
theorem C4_units_roundtrip_bug :
    set_get_roundtrip "dBm" = Except.ok "db" ∧
    set_get_roundtrip "dB" = Except.ok "dbm" ∧
    pyLower "db" ≠ pyLower "dBm" ∧
    set_get_roundtrip "watts" = Except.ok "watts" ∧
    set_get_roundtrip "REL" = Except.ok "rel" ∧
    N1830_set_units "lumens" =
      Except.error "units must be one of watts, dbm, db, or rel" := by
  decide

set_option maxRecDepth 8000 in
/-- Claim C7: for every status byte value 0..255,
`is_measurement_valid` is false exactly when bit 4 (saturated), bit 8
(out-of-range) or bit 32 (busy) is set, and the result only depends on
those three bits. -/
theorem C7_is_measurement_valid :
    ∀ r : Fin 256,
      (is_measurement_valid r.val = false ↔
        (r.val &&& 4 ≠ 0 ∨ r.val &&& 8 ≠ 0 ∨ r.val &&& 32 ≠ 0)) ∧
      is_measurement_valid r.val = is_measurement_valid (r.val &&& 44) := by
  decide

/-- Claim C8: when the `U?` mode query answers `1` (already watts),
`power` only reads the display value, sends no units-set command and
returns the watts-tagged value; otherwise it sets watts, reads and
restores the original mode. -/
theorem C8_power_watts (dev : MeterDevice) (p : ℚ)
    (hD : pyFloat (dev.ask "D?") = some p) :
    (dev.ask "U?" = "1" → N1830_power dev = (Except.ok (p, "watts"), [])) ∧
    (dev.ask "U?" ≠ "1" →
      N1830_power dev = (Except.ok (p, "watts"), ["U1", "U" ++ dev.ask "U?"])) := by
  constructor
  · intro h1
    simp [N1830_power, h1, hD]
  · intro h2
    simp [N1830_power, h2, hD]

/-- The mock device of the C8 example: display value 0.003, units
mode 1 (watts). -/
def meter1830 : MeterDevice :=
  ⟨fun q => if q = "D?" then "0.003" else if q = "U?" then "1" else ""⟩

/-- Witness for C8 at the example device of the spec. -/
theorem C8_power_watts_witness :
    N1830_power meter1830 = (Except.ok ((3 : ℚ) / 1000, "watts"), []) :=
  (C8_power_watts meter1830 ((3 : ℚ) / 1000) (by
      have h1 : pyFloat (meter1830.ask "D?") =
          some ((digitsToNat ['0'] : ℚ) +
            (digitsToNat ['0', '0', '3'] : ℚ) / 10 ^ (['0', '0', '3'].length)) := rfl
      rw [h1]
      norm_num [digitsToNat, List.foldl, show '0'.toNat = 48 from rfl,
        show '3'.toNat = 51 from rfl])).1 (by decide)

/-! ### Claims C6, C10: measurement statistics -/

/-- Claim C6: when the device reports the statistics mode as `OFF` or
`0`, `read_measurement_stats` fails with the precondition error and the
combined stats-value query is never among the queries sent. -/
theorem C6_stats_off (dev : ScopeDevice) (num : Nat)
    (hoff : dev.ask "measu:statistics:mode?" = "OFF" ∨
      dev.ask "measu:statistics:mode?" = "0") :
    (read_measurement_stats dev num).1 =
      Except.error "Measurement statistics are turned off, please turn them on." ∧
    ("measurement:meas" ++ toString num ++
        ":value?;mean?;stddev?;minimum?;maximum?;units?") ∉
      (read_measurement_stats dev num).2 := by
  have hon : are_measurement_stats_on dev = false := by
    unfold are_measurement_stats_on
    rcases hoff with h | h <;> simp [h]
  constructor
  · simp [read_measurement_stats, hon]
  · simp only [read_measurement_stats, hon]
    intro hmem
    simp only [if_neg Bool.false_ne_true, List.mem_singleton] at hmem
    have hlen := congrArg String.length hmem
    rw [String.length_append, String.length_append] at hlen
    have h16 : ("measurement:meas" : String).length = 16 := rfl
    have h42 : ((":value?;mean?;stddev?;minimum?;maximum?;units?" : String)).length = 46 := rfl
    have h22 : (("measu:statistics:mode?" : String)).length = 22 := rfl
    omega

/-- A scope reporting measurement statistics as off. -/
def statsOffScope : ScopeDevice :=
  ⟨fun q => if q = "measu:statistics:mode?" then "OFF" else "", []⟩

/-- Witness for C6 at a device reporting `OFF`. -/
theorem C6_stats_off_witness :
    (read_measurement_stats statsOffScope 1).1 =
      Except.error "Measurement statistics are turned off, please turn them on." ∧
    ("measurement:meas" ++ toString 1 ++
        ":value?;mean?;stddev?;minimum?;maximum?;units?") ∉
      (read_measurement_stats statsOffScope 1).2 :=
  C6_stats_off statsOffScope 1 (Or.inl (by decide))

/-- Claim C10: enabling statistics always writes the `ALL` token (never
`ON`), disabling writes `OFF`; the query helper returns false exactly
on the responses `OFF` and `0`; hence against a device echoing the
last-set token, enable-then-query gives true and disable-then-query
gives false. -/
theorem C10_stats_tokens :
    enable_measurement_stats true = ["measu:statistics:mode ALL"] ∧
    enable_measurement_stats false = ["measu:statistics:mode OFF"] ∧
    disable_measurement_stats = ["measu:statistics:mode OFF"] ∧
    (∀ dev : ScopeDevice,
      (are_measurement_stats_on dev = false ↔
        (dev.ask "measu:statistics:mode?" = "OFF" ∨
          dev.ask "measu:statistics:mode?" = "0"))) ∧
    (∀ e : Bool,
      are_measurement_stats_on
        (echoScope (mode_cmd_token ((enable_measurement_stats e).headD ""))) = e) := by
  refine ⟨by decide, by decide, by decide, ?_, ?_⟩
  · intro dev
    simp only [are_measurement_stats_on, Bool.not_eq_eq_eq_not, Bool.not_true,
      Bool.or_eq_false_iff]
    constructor
    · intro h
      simp [are_measurement_stats_on] at h
      tauto
    · intro h
      simp [are_measurement_stats_on]
      tauto
  · intro e
    cases e <;> decide

/-! ### Claims C5, C9: Newport 2936-R setters -/

/-- Counterexample to claim C5 as stated: an invalid units argument to
`Newport_2936_R.set_units` fails only after the channel-select command
has already been sent, so the sent-command list is not empty. -/
theorem C5_counterexample :
    N2936_set_units "foo" 1 = (Except.error "KeyError: foo", ["pm:channel 1"]) ∧
    (["pm:channel 1"] : List String) ≠ ([] : List String) := ⟨by decide, by decide⟩

/-- Claim C5, amended: `set_digitalfilter` and `set_range` validate
their argument and fail before sending any command; `set_autoranging`
cannot fail on a boolean argument; but `set_units` and
`set_analogfilter` reject an invalid argument only after the
channel-select command has been sent (exactly that one command). -/
theorem C5_validation_amended :
    (∀ (num ch : Int), (num < 0 ∨ 10000 < num) →
      N2936_set_digitalfilter num ch = (Except.error "AssertionError", [])) ∧
    (∀ (v ch : Int), (v < 0 ∨ 7 < v) →
      N2936_set_range v ch = (Except.error "AssertionError", [])) ∧
    (∀ (b : Bool) (ch : Int), (N2936_set_autoranging b ch).1 = Except.ok ()) ∧
    (∀ (u : String) (ch : Int), N2936_unitCodes.lookup (pyLower u) = none →
      N2936_set_units u ch =
        (Except.error ("KeyError: " ++ pyLower u), [N2936_chanCmd ch])) ∧
    (∀ (m : String) (ch : Int), N2936_analogModes.lookup (pyLower m) = none →
      N2936_set_analogfilter m ch =
        (Except.error ("KeyError: " ++ pyLower m), [N2936_chanCmd ch])) := by
  refine ⟨?_, ?_, ?_, ?_, ?_⟩
  · intro num ch h
    simp [N2936_set_digitalfilter, if_pos h]
  · intro v ch h
    simp [N2936_set_range, if_pos h]
  · intro b ch
    rfl
  · intro u ch h
    simp [N2936_set_units, h]
  · intro m ch h
    simp [N2936_set_analogfilter, h]

/-- Witness for the amended C5 at concrete invalid and valid inputs. -/
theorem C5_validation_amended_witness :
    N2936_set_digitalfilter (-1) 1 = (Except.error "AssertionError", []) ∧
    N2936_set_range 8 1 = (Except.error "AssertionError", []) ∧
    (N2936_set_autoranging true 1).1 = Except.ok () ∧
    N2936_set_units "lux" 1 =
      (Except.error ("KeyError: " ++ pyLower "lux"), [N2936_chanCmd 1]) ∧
    N2936_set_analogfilter "bogus" 1 =
      (Except.error ("KeyError: " ++ pyLower "bogus"), [N2936_chanCmd 1]) :=
  ⟨C5_validation_amended.1 (-1) 1 (Or.inl (by decide)),
   C5_validation_amended.2.1 8 1 (Or.inr (by decide)),
   C5_validation_amended.2.2.1 true 1,
   C5_validation_amended.2.2.2.1 "lux" 1 (by decide),
   C5_validation_amended.2.2.2.2 "bogus" 1 (by decide)⟩

/-- Claim C9: for every channel argument, `set_analogfilter` with the
documented mode string `None` always fails, because the table key is
the capitalised `None` while the lookup uses the lowercased `none`;
the failure happens only after the channel-select command is sent. -/
theorem C9_analogfilter_none (ch : Int) :
    N2936_analogModes.lookup "None" = some 0 ∧
    pyLower "None" = "none" ∧
    N2936_analogModes.lookup (pyLower "None") = none ∧
    N2936_set_analogfilter "None" ch =
      (Except.error "KeyError: none", [N2936_chanCmd ch]) := by
  refine ⟨by decide, by decide, by decide, ?_⟩
  simp only [N2936_set_analogfilter,
    show N2936_analogModes.lookup (pyLower "None") = none from by decide,
    show ("KeyError: " ++ pyLower "None" : String) = "KeyError: none" from by decide]

/-- Witness for C7 at the status byte 44 (all three fault bits set). -/
theorem C7_is_measurement_valid_witness :
    (is_measurement_valid 44 = false ↔
      ((44 : Nat) &&& 4 ≠ 0 ∨ (44 : Nat) &&& 8 ≠ 0 ∨ (44 : Nat) &&& 32 ≠ 0)) ∧
    is_measurement_valid 44 = is_measurement_valid (44 &&& 44) :=
  C7_is_measurement_valid ⟨44, by decide⟩

/-- Witness for C9 at channel 2. -/
theorem C9_analogfilter_none_witness :
    N2936_analogModes.lookup "None" = some 0 ∧
    pyLower "None" = "none" ∧
    N2936_analogModes.lookup (pyLower "None") = none ∧
    N2936_set_analogfilter "None" 2 =
      (Except.error "KeyError: none", [N2936_chanCmd 2]) :=
  C9_analogfilter_none 2

/-- Witness for C10: the echoed round trip at both boolean inputs. -/
theorem C10_stats_tokens_witness :
    are_measurement_stats_on
      (echoScope (mode_cmd_token ((enable_measurement_stats true).headD ""))) = true ∧
    are_measurement_stats_on
      (echoScope (mode_cmd_token ((enable_measurement_stats false).headD ""))) = false :=
  ⟨C10_stats_tokens.2.2.2.2 true, C10_stats_tokens.2.2.2.2 false⟩
